import Mathlib

/-!
Shallow embedding of `src/tsetmc.py` (function `stock_history`) and proofs
about its behaviour: inscode validation, the bounded retry loop, status
handling, symbol resolution, table normalization, the date-window default
resolution and the inclusive date slice, and the legacy top-level error
policy.
-/

set_option maxRecDepth 4000

namespace Tsetmc

/-- Gregorian calendar date, as produced by parsing the integer `dEven`
field (format YYYYMMDD) with `pd.to_datetime(..., format="%Y%m%d")`.
The optional `start_date` / `end_date` arguments ("YYYY-MM-DD" strings in
the Python code) are represented by their parsed calendar dates, since
pandas compares slice labels after converting them to timestamps. -/
structure Date where
  year : Nat
  month : Nat
  day : Nat
deriving DecidableEq, Repr

/-- Numeric key YYYYMMDD of a date. For the component ranges produced by
`parseDEven` (month and day below 100) the key order coincides with
chronological (lexicographic) order, which is how pandas orders the
datetime index labels. -/
def Date.key (d : Date) : Nat := d.year * 10000 + d.month * 100 + d.day

instance : LE Date := ⟨fun a b => a.key ≤ b.key⟩

instance : LT Date := ⟨fun a b => a.key < b.key⟩

instance (a b : Date) : Decidable (a ≤ b) :=
  inferInstanceAs (Decidable (a.key ≤ b.key))

instance (a b : Date) : Decidable (a < b) :=
  inferInstanceAs (Decidable (a.key < b.key))

/-- Parsing of the integer date field (line 79 of src/tsetmc.py):
`pd.to_datetime(df["dEven"], format="%Y%m%d")` splits the decimal digits
as YYYYMMDD. -/
def parseDEven (n : Nat) : Date :=
  { year := n / 10000, month := n / 100 % 100, day := n % 100 }

/-- Jalali (Persian solar) calendar date. -/
structure JalaliDate where
  jyear : Int
  jmonth : Nat
  jday : Nat
deriving DecidableEq, Repr

/-- Modelled from the spec: the deterministic, pure Gregorian-to-Jalali
conversion performed by `jdatetime.date.fromgregorian` (external library
code, not part of src/), realised by the standard jalaali day-count
algorithm. The code derives `date_shamsi` by applying this conversion to
the year, month and day of each parsed Gregorian date (lines 80-83). -/
def gregorianToJalali (gy gm gd : Nat) : JalaliDate :=
  let gdm : List Nat := [0, 31, 59, 90, 120, 151, 181, 212, 243, 273, 304, 334]
  let gy2 := if 2 < gm then gy + 1 else gy
  let days := 355666 + 365 * gy + (gy2 + 3) / 4 + (gy2 + 399) / 400
      + gd + gdm.getD (gm - 1) 0 - (gy2 + 99) / 100
  let jy1 : Int := -1595 + 33 * Int.ofNat (days / 12053)
  let d1 := days % 12053
  let jy2 : Int := jy1 + 4 * Int.ofNat (d1 / 1461)
  let d2 := d1 % 1461
  let jy3 : Int := if 365 < d2 then jy2 + Int.ofNat ((d2 - 1) / 365) else jy2
  let d3 := if 365 < d2 then (d2 - 1) % 365 else d2
  if d3 < 186 then ⟨jy3, 1 + d3 / 31, 1 + d3 % 31⟩
  else ⟨jy3, 7 + (d3 - 186) / 30, 1 + (d3 - 186) % 30⟩

/-- Raw per-day record of the upstream `closingPriceDaily` array; the field
set is exactly the twelve columns dropped at line 76 plus the three kept
columns `dEven`, `pClosing`, `qTotCap`. -/
structure RawRecord where
  insCode : Int
  dEven : Nat
  hEven : Int
  pClosing : Int
  iClose : Int
  yClose : Int
  pDrCotVal : Int
  zTotTran : Int
  qTotTran5J : Int
  qTotCap : Int
  priceMin : Int
  priceMax : Int
  priceChange : Int
  last : Int
  id : Int
deriving DecidableEq, Repr

/-- Normalized public row after dropping, date parsing, Jalali derivation
and renaming (lines 76-89); the row is keyed by `date`, which also remains
a column of the table. -/
structure NormRow where
  date_shamsi : JalaliDate
  date : Date
  close : Int
  value_of_trade : Int
deriving DecidableEq, Repr

/-- Row-level normalization (lines 73-89): each raw record is mapped in
order to a normalized row; `dEven` is parsed as the Gregorian date,
`date_shamsi` is derived from its components, `pClosing` becomes `close`
and `qTotCap` becomes `value_of_trade`. -/
def normalize (records : List RawRecord) : List NormRow :=
  records.map (fun r =>
    let d := parseDEven r.dEven
    { date_shamsi := gregorianToJalali d.year d.month d.day
      date := d
      close := r.pClosing
      value_of_trade := r.qTotCap })

/-- Minimum of the date index, `df.index.min()` (line 91); `none` on an
empty table. -/
def indexMin (rows : List NormRow) : Option Date :=
  rows.foldl (fun acc r =>
    match acc with
    | none => some r.date
    | some m => if r.date < m then some r.date else some m) none

/-- Maximum of the date index, `df.index.max()` (line 93); `none` on an
empty table. -/
def indexMax (rows : List NormRow) : Option Date :=
  rows.foldl (fun acc r =>
    match acc with
    | none => some r.date
    | some m => if m < r.date then some r.date else some m) none

/-- Default resolution of the date window (lines 90-96), a mutually
exclusive if / elif / else: when `start_date` is None it is set to the
index minimum (and `end_date` is left exactly as supplied); otherwise,
when `end_date` is None it is set to the index maximum; otherwise both
supplied values are parsed and used as given. -/
def resolveWindow (rows : List NormRow) (sd ed : Option Date) :
    Option Date × Option Date :=
  match sd with
  | none => (indexMin rows, ed)
  | some s =>
    match ed with
    | none => (some s, indexMax rows)
    | some e => (some s, some e)

/-- Label slice `df[start_date : end_date]` (line 98) on the sorted, unique
date index: inclusive at both bounds; a missing bound leaves that side of
the window open. -/
def sliceRows (rows : List NormRow) (sd ed : Option Date) : List NormRow :=
  rows.filter (fun r =>
    (match sd with
     | none => true
     | some s => decide (s ≤ r.date)) &&
    (match ed with
     | none => true
     | some e => decide (r.date ≤ e)))

/-- Outcome of one attempted HTTP request: either a transport-level
exception raised by `req.request` / `req.get` itself, or a response
carrying a status code and a parsed body. -/
inductive Attempt (α : Type) where
  | transportErr : Attempt α
  | response (status : Nat) (body : α) : Attempt α
deriving DecidableEq, Repr

/-- Statuses for which `response.raise_for_status()` raises `HTTPError`:
exactly the 4xx and 5xx client and server error codes. `HTTPError` is a
subclass of `requests.RequestException`, so it is caught by the retry
loop's `except req.RequestException` handler. -/
def httpErrorStatus (s : Nat) : Bool := decide (400 ≤ s) && decide (s < 600)

/-- State left by the retry loop: the value of the local `response`
variable (`none` when it was never bound), the number of requests issued
and the number of 5-second sleeps performed. -/
structure LoopResult (α : Type) where
  response : Option (Nat × α)
  requests : Nat
  sleeps : Nat
deriving DecidableEq, Repr

/-- Retry loop `for _ in range(3)` (lines 59-66 and 111-118): each
iteration issues one request; a transport exception or an error-status
response (via `raise_for_status`) is caught, printed and followed by a
5-second sleep; a response that does not raise breaks the loop. The
`response` variable stays bound to the most recent response received,
even when that response carried an error status. -/
def runAttempts {α : Type} : Nat → List (Attempt α) → Option (Nat × α) →
    Nat → Nat → LoopResult α
  | 0, _, resp, rq, sl => ⟨resp, rq, sl⟩
  | _ + 1, [], resp, rq, sl => ⟨resp, rq, sl⟩
  | fuel + 1, a :: rest, resp, rq, sl =>
    match a with
    | .transportErr => runAttempts fuel rest resp (rq + 1) (sl + 1)
    | .response s body =>
      if httpErrorStatus s then
        runAttempts fuel rest (some (s, body)) (rq + 1) (sl + 1)
      else ⟨some (s, body), rq + 1, sl⟩

/-- Value supplied for the `inscode` argument: a Python integer, or any
non-integer value (which fails the `isinstance(inscode, int)` check). -/
inductive InsParam where
  | intVal (n : Int)
  | nonIntVal
deriving DecidableEq, Repr

/-- Decimal string rendering of the supplied inscode; on integers `toString`
on `Int` agrees with Python `str` (minus sign included, no leading
zeros). The non-integer case is an abstract stand-in. -/
def insStr : InsParam → String
  | .intVal n => toString n
  | .nonIntVal => "nonint"

/-- Validation at line 52: `isinstance(inscode, int)` and
`len(str(inscode))` equal to 16 or 17. -/
def insValid : InsParam → Bool
  | .intVal n =>
      decide ((toString n).length = 16) || decide ((toString n).length = 17)
  | .nonIntVal => false

/-- URL of the history request (line 56), parameterized by the inscode and
the `days` argument. It is built only after validation has passed. -/
def histUrl (v : InsParam) (days : Nat) : String :=
  "http://cdn.tsetmc.com/api/ClosingPrice/GetClosingPriceDailyList/"
    ++ insStr v ++ "/" ++ toString days

/-- Exceptions the try-block body can raise: the ValueError for a
malformed inscode (line 53), the status-code Exception (line 104), a
NameError on an unbound response variable after three caught attempt
failures (lines 69 and 121), and the unmatched-symbol Exception
(line 129). -/
inductive FetchError where
  | invalidInscode (v : InsParam)
  | statusError (status : Nat)
  | nameError (var : String)
  | notFound (symbol : String)
deriving DecidableEq, Repr

/-- Result of the history fetch body: a normalized, window-filtered table
or a raised exception. -/
inductive FetchResult where
  | ok (rows : List NormRow)
  | error (e : FetchError)
deriving DecidableEq, Repr

/-- Observable trace of one history fetch: the URL requested (`none` when
validation failed before the URL was built), the outcome, and the counts
of requests issued and sleeps performed. -/
structure FetchTrace where
  url : Option String
  result : FetchResult
  requests : Nat
  sleeps : Nat
deriving DecidableEq, Repr

/-- History fetch by inscode (lines 51-104): validate, build the URL, run
the retry loop with the attempt outcomes supplied by `att`, then branch on
the status of the bound response: 200 parses `closingPriceDaily`,
normalizes, resolves the date window and slices; any other bound status
raises the status-code Exception; an unbound `response` raises NameError. -/
def fetchByInscode (v : InsParam) (days : Nat) (sd ed : Option Date)
    (att : List (Attempt (List RawRecord))) : FetchTrace :=
  if insValid v then
    let L := runAttempts 3 att none 0 0
    match L.response with
    | none => ⟨some (histUrl v days), .error (.nameError "response"),
               L.requests, L.sleeps⟩
    | some sb =>
      if sb.1 = 200 then
        let rows := normalize sb.2
        let w := resolveWindow rows sd ed
        ⟨some (histUrl v days), .ok (sliceRows rows w.1 w.2),
         L.requests, L.sleeps⟩
      else ⟨some (histUrl v days), .error (.statusError sb.1),
            L.requests, L.sleeps⟩
  else ⟨none, .error (.invalidInscode v), 0, 0⟩

/-- Candidate returned by the instrument search endpoint: the nested
`instrumentSearch` object's instrument code and internal identifier
string `lVal18AFC`. -/
structure Candidate where
  insCode : Int
  lVal18AFC : String
deriving DecidableEq, Repr

/-- Selection rule at line 122: the first candidate whose `lVal18AFC` has
the same character length as the input symbol; `none` when no candidate
matches. -/
def resolveSymbol (symbol : String) (cands : List Candidate) : Option Int :=
  (cands.find? (fun c => c.lVal18AFC.length == symbol.length)).map
    (fun c => c.insCode)

/-- Observable outcome of one `stock_history` call: a returned table, the
sentinel string of the no-parameter branch, or a printed diagnostic with
an implicit `None` return (the legacy swallowed-error outcome). -/
inductive Output where
  | table (rows : List NormRow)
  | sentinel (msg : String)
  | swallowed (msg : String)
deriving DecidableEq, Repr

/-- Diagnostic message printed by the top-level handlers (lines 135-140;
the Python NameError message quotes the variable name, rendered here
without the quote characters). -/
def errMsg : FetchError → String
  | .invalidInscode v =>
      "ValueError: Invalid inscode: " ++ insStr v
        ++ ". Inscode should be a 16 or 17 digit integer."
  | .statusError s => "Error: Failed to get data. Status code: " ++ toString s
  | .nameError v => "Error: name " ++ v ++ " is not defined"
  | .notFound sym => "Error: Inscode not found for symbol: " ++ sym

/-- Outcome of the recursive call `stock_history(inscode=ins, days=days,
start_date=start_date, end_date=end_date)` (line 126): the inscode path of
the callee runs inside the callee's own try / except, so its errors are
swallowed there and the caller receives the callee's return value. -/
def wrapFetch (v : InsParam) (days : Nat) (sd ed : Option Date)
    (hist : List (Attempt (List RawRecord))) : Output :=
  match (fetchByInscode v days sd ed hist).result with
  | .ok rows => .table rows
  | .error e => .swallowed (errMsg e)

/-- Body of the try block (lines 46-133). `Except.error` represents an
exception escaping the try body to the handlers at lines 135-140. The
inscode branch is checked first; the symbol branch runs its own retry
loop on the search endpoint, uses the body of the bound response without
checking its status, resolves the symbol and recursively fetches by the
resolved code; when neither argument is supplied the sentinel string is
returned. -/
def innerStock (symbol : Option String) (inscode : Option InsParam)
    (days : Nat) (sd ed : Option Date)
    (hist : List (Attempt (List RawRecord)))
    (search : List (Attempt (List Candidate))) : Except FetchError Output :=
  match inscode with
  | some v =>
    match (fetchByInscode v days sd ed hist).result with
    | .ok rows => .ok (.table rows)
    | .error e => .error e
  | none =>
    match symbol with
    | some sym =>
      let L := runAttempts 3 search none 0 0
      match L.response with
      | none => .error (.nameError "resp")
      | some sc =>
        match resolveSymbol sym sc.2 with
        | some code => .ok (wrapFetch (.intVal code) days sd ed hist)
        | none => .error (.notFound sym)
    | none => .ok (.sentinel "No valid parameters provided for fetching stock data.")

/-- Top level of `stock_history` (lines 46-140): the try body wrapped in
the legacy catch-all policy, which prints a diagnostic and returns an
implicit `None` for every exception the body raises. -/
def stock_history (symbol : Option String) (inscode : Option InsParam)
    (days : Nat) (sd ed : Option Date)
    (hist : List (Attempt (List RawRecord)))
    (search : List (Attempt (List Candidate))) : Output :=
  match innerStock symbol inscode days sd ed hist search with
  | .ok o => o
  | .error e => .swallowed (errMsg e)

/-- Schema-level view of a pandas DataFrame: the ordered column labels and
the name of the current index (`none` for the default RangeIndex). -/
structure Frame where
  cols : List String
  indexName : Option String
deriving DecidableEq, Repr

/-- Column effect of `df.drop(columns=[...])` (line 76). -/
def dropColumns (f : Frame) (cs : List String) : Frame :=
  { f with cols := f.cols.filter (fun c => !(cs.contains c)) }

/-- Column effect of `df.insert(loc, column, value)` (line 80): the new
column label is inserted at position `loc`. -/
def insertColumn (f : Frame) (loc : Nat) (c : String) : Frame :=
  { f with cols := f.cols.take loc ++ c :: f.cols.drop loc }

/-- Column effect of `df.rename(columns={...})` (lines 85-87). -/
def renameColumns (f : Frame) (m : List (String × String)) : Frame :=
  { f with cols := f.cols.map (fun c =>
      match m.lookup c with
      | some c2 => c2
      | none => c) }

/-- Keys argument of `DataFrame.set_index`: either a column label, or an
array-like (here the Series `df["date"]`). -/
inductive IndexKeys where
  | label (c : String)
  | series (name : String)

/-- Modelled from the spec: pandas semantics of `set_index(keys, drop)`
(library code, not part of src/). `drop=True` removes `keys` from the
columns only when `keys` is a column label; an array-like or Series key
is used as the index directly and removes no column. -/
def setIndex (f : Frame) (k : IndexKeys) (drop : Bool) : Frame :=
  match k with
  | .label c =>
    { cols := if drop then f.cols.filter (fun x => !(x == c)) else f.cols,
      indexName := some c }
  | .series name => { cols := f.cols, indexName := some name }

/-- Column labels of the raw `closingPriceDaily` records. -/
def rawColumns : List String :=
  ["insCode", "dEven", "hEven", "pClosing", "iClose", "yClose", "pDrCotVal",
   "zTotTran", "qTotTran5J", "qTotCap", "priceMin", "priceMax",
   "priceChange", "last", "id"]

/-- Columns dropped at line 76. -/
def droppedColumns : List String :=
  ["qTotTran5J", "priceChange", "priceMin", "priceMax", "zTotTran",
   "pDrCotVal", "last", "insCode", "id", "iClose", "yClose", "hEven"]

/-- Renaming applied at lines 85-87. -/
def renameMap : List (String × String) :=
  [("dEven", "date"), ("pClosing", "close"), ("qTotCap", "value_of_trade")]

/-- Column pipeline of the normalization (lines 76-89): drop, insert
`date_shamsi` at position 0, rename, then `set_index(df["date"],
drop=True)` with a Series key. -/
def normalizedFrame : Frame :=
  setIndex
    (renameColumns
      (insertColumn (dropColumns ⟨rawColumns, none⟩ droppedColumns) 0
        "date_shamsi")
      renameMap)
    (.series "date") true

/-- Raw record with the given `dEven` and zeroes elsewhere, for concrete
test tables. -/
def demoRaw (n : Nat) : RawRecord :=
  ⟨0, n, 0, 0, 0, 0, 0, 0, 0, 0, 0, 0, 0, 0, 0⟩

/-- Three-day normalized table, 2021-01-01 .. 2021-01-03. -/
def rows3 : List NormRow :=
  normalize [demoRaw 20210101, demoRaw 20210102, demoRaw 20210103]

/-- Ten-day normalized table, 2021-01-01 .. 2021-01-10. -/
def rows10 : List NormRow :=
  normalize ((List.range 10).map (fun i => demoRaw (20210101 + i)))

/-- Valid 17-digit inscode from the docstring example. -/
def vOk : InsParam := .intVal 35425587644337450

/-- Helper: bridging the validity check with the claim's wording. -/
theorem insValid_iff (v : InsParam) :
    insValid v = true ↔ ∃ n : Int, v = InsParam.intVal n ∧
      ((toString n).length = 16 ∨ (toString n).length = 17) := by
  cases v with
  | intVal n => simp [insValid]
  | nonIntVal => simp [insValid]

/-- Helper: `List.find?` returns the first element satisfying the
predicate. -/
theorem find_first (p : Candidate → Bool) (pre post : List Candidate)
    (c : Candidate) (hpre : ∀ x ∈ pre, p x = false) (hc : p c = true) :
    (pre ++ c :: post).find? p = some c := by
  induction pre with
  | nil => simp [List.find?_cons, hc]
  | cons a t ih =>
    have ha : p a = false := hpre a (by simp)
    have ht : ∀ x ∈ t, p x = false := fun x hx => hpre x (by simp [hx])
    simp [List.find?_cons, ha, ih ht]

/-- Helper: the date parser is injective, hence strictly increasing raw
dates yield pairwise distinct parsed dates. -/
theorem parseDEven_inj {a b : Nat} (h : parseDEven a = parseDEven b) :
    a = b := by
  have h1 := congrArg Date.year h
  have h2 := congrArg Date.month h
  have h3 := congrArg Date.day h
  simp only [parseDEven] at h1 h2 h3
  omega

/-- C1 counterexample: on the three-day table with
`start_date = 2021-01-02` supplied and `end_date` unset, the resolved
`end_date` is assigned the index maximum 2021-01-03 — it does not stay
unset, contrary to the claim. -/
theorem c1_counterexample :
    (resolveWindow rows3 (some ⟨2021, 1, 2⟩) none).2 = some ⟨2021, 1, 3⟩ ∧
    (resolveWindow rows3 (some ⟨2021, 1, 2⟩) none).2 ≠ none := by
  exact ⟨rfl, by decide⟩

/-- C1 (amended): if `start_date` is unset it is replaced by the index
minimum and `end_date` stays exactly as supplied (whether or not it was
given); if `start_date` is supplied and `end_date` is unset, `end_date`
IS auto-filled to the index maximum; when both are supplied both pass
through as given. -/
theorem c1_amended (rows : List NormRow) (s e : Date) (ed : Option Date) :
    resolveWindow rows none ed = (indexMin rows, ed) ∧
    resolveWindow rows (some s) none = (some s, indexMax rows) ∧
    resolveWindow rows (some s) (some e) = (some s, some e) :=
  ⟨rfl, rfl, rfl⟩

/-- C2 counterexample: a 404 response on the history endpoint IS retried —
three requests and three sleeps are made (not one request), and a 404
followed by a 200 even yields a successful result; only after the retries
are exhausted is the status-code error raised. -/
theorem c2_counterexample :
    (fetchByInscode vOk 0 none none
        [.response 404 [], .response 404 [], .response 404 []]).requests = 3 ∧
    ¬ (fetchByInscode vOk 0 none none
        [.response 404 [], .response 404 [], .response 404 []]).requests = 1 ∧
    (fetchByInscode vOk 0 none none
        [.response 404 [], .response 404 [], .response 404 []]).result
      = .error (.statusError 404) ∧
    (fetchByInscode vOk 0 none none
        [.response 404 [], .response 200 [demoRaw 20210101],
         .response 200 []]).result = .ok (normalize [demoRaw 20210101]) := by
  exact ⟨rfl, by decide, rfl, rfl⟩

/-- C2 (amended): for an error status (400-599) every response raises
`HTTPError` inside the retry loop — a `RequestException`, so it is caught
and retried exactly like a transport failure; after the three attempts
the fetch fails with the status-code error of the last bound response.
A non-200 status below 400 does not raise in `raise_for_status`, so it
breaks the loop after a single request and zero sleeps and the
status-code error is raised at once. -/
theorem c2_amended (s : Nat) (body : List RawRecord) (v : InsParam)
    (days : Nat) (sd ed : Option Date) (a2 a3 : Attempt (List RawRecord))
    (hv : insValid v = true) :
    (400 ≤ s → s < 600 →
      (fetchByInscode v days sd ed
          [.response s body, .response s body, .response s body]).result
        = .error (.statusError s) ∧
      (fetchByInscode v days sd ed
          [.response s body, .response s body, .response s body]).requests = 3 ∧
      (fetchByInscode v days sd ed
          [.response s body, .response s body, .response s body]).sleeps = 3) ∧
    (s < 400 → ¬ s = 200 →
      (fetchByInscode v days sd ed [.response s body, a2, a3]).result
        = .error (.statusError s) ∧
      (fetchByInscode v days sd ed [.response s body, a2, a3]).requests = 1 ∧
      (fetchByInscode v days sd ed [.response s body, a2, a3]).sleeps = 0) := by
  constructor
  · intro h1 h2
    have hes : httpErrorStatus s = true := by
      simp [httpErrorStatus, h1, h2]
    have hrun : runAttempts 3
        [Attempt.response s body, Attempt.response s body,
         Attempt.response s body] (none : Option (Nat × List RawRecord)) 0 0
        = ⟨some (s, body), 3, 3⟩ := by
      simp [runAttempts, hes]
    have hs200 : ¬ s = 200 := by omega
    simp [fetchByInscode, hv, hrun, hs200]
  · intro h1 h2
    have hes : httpErrorStatus s = false := by
      simp only [httpErrorStatus, Bool.and_eq_false_iff, decide_eq_false_iff_not]
      omega
    have hrun : runAttempts 3 [Attempt.response s body, a2, a3]
        (none : Option (Nat × List RawRecord)) 0 0 = ⟨some (s, body), 1, 0⟩ := by
      simp [runAttempts, hes]
    simp [fetchByInscode, hv, hrun, h2]

/-- C2 witness: concrete instances of both branches of the amended claim
(404 retried three times; 304 not retried). -/
theorem c2_amended_witness :
    ((fetchByInscode vOk 0 none none
        [.response 404 [], .response 404 [], .response 404 []]).result
      = .error (.statusError 404) ∧
     (fetchByInscode vOk 0 none none
        [.response 404 [], .response 404 [], .response 404 []]).requests = 3 ∧
     (fetchByInscode vOk 0 none none
        [.response 404 [], .response 404 [], .response 404 []]).sleeps = 3) ∧
    ((fetchByInscode vOk 0 none none
        [.response 304 [], .transportErr, .transportErr]).result
      = .error (.statusError 304) ∧
     (fetchByInscode vOk 0 none none
        [.response 304 [], .transportErr, .transportErr]).requests = 1 ∧
     (fetchByInscode vOk 0 none none
        [.response 304 [], .transportErr, .transportErr]).sleeps = 0) :=
  ⟨(c2_amended 404 [] vOk 0 none none .transportErr .transportErr rfl).1
      (by decide) (by decide),
   (c2_amended 304 [] vOk 0 none none .transportErr .transportErr rfl).2
      (by decide) (by decide)⟩

/-- C3 counterexample: when all three attempts fail with transport
exceptions, no TransportError is surfaced to the caller: every transport
exception is caught inside the retry loop, the local `response` variable
is left unbound, the subsequent status check raises a NameError, and the
top-level handler swallows it (prints a diagnostic and returns the
implicit None). -/
theorem c3_counterexample :
    (fetchByInscode vOk 0 none none
        [.transportErr, .transportErr, .transportErr]).result
      = .error (.nameError "response") ∧
    stock_history none (some vOk) 0 none none
        [.transportErr, .transportErr, .transportErr] []
      = .swallowed (errMsg (.nameError "response")) := by
  exact ⟨rfl, rfl⟩

/-- C3 (amended): two transport failures followed by a 200 response yield
a successful result after exactly 3 attempts and 2 five-second sleeps;
three consecutive transport failures are all caught inside the loop, the
call then fails with a NameError on the unbound `response` variable after
3 attempts and 3 sleeps, and the legacy top level swallows that error —
no transport error reaches the caller. -/
theorem c3_amended (v : InsParam) (days : Nat) (sd ed : Option Date)
    (body : List RawRecord) (search : List (Attempt (List Candidate)))
    (hv : insValid v = true) :
    ((∃ rows, (fetchByInscode v days sd ed
        [.transportErr, .transportErr, .response 200 body]).result
          = .ok rows) ∧
     (fetchByInscode v days sd ed
        [.transportErr, .transportErr, .response 200 body]).requests = 3 ∧
     (fetchByInscode v days sd ed
        [.transportErr, .transportErr, .response 200 body]).sleeps = 2) ∧
    ((fetchByInscode v days sd ed
        [.transportErr, .transportErr, .transportErr]).result
       = .error (.nameError "response") ∧
     (fetchByInscode v days sd ed
        [.transportErr, .transportErr, .transportErr]).requests = 3 ∧
     (fetchByInscode v days sd ed
        [.transportErr, .transportErr, .transportErr]).sleeps = 3 ∧
     stock_history none (some v) days sd ed
        [.transportErr, .transportErr, .transportErr] search
       = .swallowed (errMsg (.nameError "response"))) := by
  have hrun1 : runAttempts 3
      [Attempt.transportErr, Attempt.transportErr, Attempt.response 200 body]
      (none : Option (Nat × List RawRecord)) 0 0 = ⟨some (200, body), 3, 2⟩ := rfl
  have hrun2 : runAttempts 3
      [Attempt.transportErr, Attempt.transportErr, Attempt.transportErr]
      (none : Option (Nat × List RawRecord)) 0 0 = ⟨none, 3, 3⟩ := rfl
  refine ⟨⟨⟨sliceRows (normalize body) (resolveWindow (normalize body) sd ed).1
      (resolveWindow (normalize body) sd ed).2, ?_⟩, ?_, ?_⟩, ?_, ?_, ?_, ?_⟩ <;>
    simp [fetchByInscode, stock_history, innerStock, hv, hrun1, hrun2]

/-- C3 witness: concrete instance of the amended claim at the valid
example inscode. -/
theorem c3_amended_witness :
    ((∃ rows, (fetchByInscode vOk 0 none none
        [.transportErr, .transportErr, .response 200 []]).result
          = .ok rows) ∧
     (fetchByInscode vOk 0 none none
        [.transportErr, .transportErr, .response 200 []]).requests = 3 ∧
     (fetchByInscode vOk 0 none none
        [.transportErr, .transportErr, .response 200 []]).sleeps = 2) ∧
    ((fetchByInscode vOk 0 none none
        [.transportErr, .transportErr, .transportErr]).result
       = .error (.nameError "response") ∧
     (fetchByInscode vOk 0 none none
        [.transportErr, .transportErr, .transportErr]).requests = 3 ∧
     (fetchByInscode vOk 0 none none
        [.transportErr, .transportErr, .transportErr]).sleeps = 3 ∧
     stock_history none (some vOk) 0 none none
        [.transportErr, .transportErr, .transportErr] []
       = .swallowed (errMsg (.nameError "response"))) :=
  c3_amended vOk 0 none none [] [] rfl

/-- C4: the fetch fails with the pre-validation ValueError — with zero
requests issued and before the request URL is even built — exactly when
the supplied inscode is not an integer whose decimal string
representation has length 16 or 17. -/
theorem c4_validation (v : InsParam) (days : Nat) (sd ed : Option Date)
    (att : List (Attempt (List RawRecord))) :
    ((fetchByInscode v days sd ed att).result
        = .error (.invalidInscode v) ∧
     (fetchByInscode v days sd ed att).requests = 0 ∧
     (fetchByInscode v days sd ed att).url = none)
    ↔ ¬ ∃ n : Int, v = InsParam.intVal n ∧
        ((toString n).length = 16 ∨ (toString n).length = 17) := by
  cases hv : insValid v with
  | false =>
    have hne : ¬ ∃ n : Int, v = InsParam.intVal n ∧
        ((toString n).length = 16 ∨ (toString n).length = 17) := by
      intro hex
      rw [(insValid_iff v).mpr hex] at hv
      cases hv
    simp [fetchByInscode, hv, hne]
  | true =>
    have hyes := (insValid_iff v).mp hv
    rcases hr : (runAttempts 3 att
        (none : Option (Nat × List RawRecord)) 0 0).response with - | sb
    · simp [fetchByInscode, hv, hr, hyes]
    · by_cases h200 : sb.1 = 200
      · simp [fetchByInscode, hv, hr, h200, hyes]
      · simp [fetchByInscode, hv, hr, h200, hyes]

/-- C5: symbol resolution picks the first candidate whose `lVal18AFC` has
the same character length as the input symbol (length equality, not
string equality) and passes its `insCode` to the recursive fetch together
with the caller's `days`, `start_date` and `end_date`; when no candidate
satisfies the length rule, the call fails with the not-found error
(swallowed by the legacy top level). -/
theorem c5_resolution (sym : String) (days : Nat) (sd ed : Option Date)
    (hist : List (Attempt (List RawRecord))) :
    (∀ (pre post : List Candidate) (c : Candidate),
      (∀ p ∈ pre, p.lVal18AFC.length ≠ sym.length) →
      c.lVal18AFC.length = sym.length →
      resolveSymbol sym (pre ++ c :: post) = some c.insCode ∧
      stock_history (some sym) none days sd ed hist
          [.response 200 (pre ++ c :: post)]
        = wrapFetch (.intVal c.insCode) days sd ed hist) ∧
    (∀ cands : List Candidate,
      (∀ c ∈ cands, c.lVal18AFC.length ≠ sym.length) →
      resolveSymbol sym cands = none ∧
      stock_history (some sym) none days sd ed hist [.response 200 cands]
        = .swallowed (errMsg (.notFound sym))) := by
  constructor
  · intro pre post c hpre hc
    have hfind : (pre ++ c :: post).find?
        (fun x => x.lVal18AFC.length == sym.length) = some c := by
      refine find_first _ pre post c (fun x hx => ?_) (by simp [hc])
      simpa using hpre x hx
    have hres : resolveSymbol sym (pre ++ c :: post) = some c.insCode := by
      simp [resolveSymbol, hfind]
    have hrun : runAttempts 3 [Attempt.response 200 (pre ++ c :: post)]
        (none : Option (Nat × List Candidate)) 0 0
        = ⟨some (200, pre ++ c :: post), 1, 0⟩ := rfl
    exact ⟨hres, by simp [stock_history, innerStock, hrun, hres]⟩
  · intro cands hall
    have hfind : cands.find?
        (fun x => x.lVal18AFC.length == sym.length) = none := by
      rw [List.find?_eq_none]
      intro x hx
      simpa using hall x hx
    have hres : resolveSymbol sym cands = none := by
      simp [resolveSymbol, hfind]
    have hrun : runAttempts 3 [Attempt.response 200 cands]
        (none : Option (Nat × List Candidate)) 0 0
        = ⟨some (200, cands), 1, 0⟩ := rfl
    exact ⟨hres, by simp [stock_history, innerStock, hrun, hres]⟩

/-- C5 witness: the candidate of matching length (the second one) is
selected and its code fetched recursively; a list with no matching
length fails with the not-found diagnostic. -/
theorem c5_resolution_witness :
    (resolveSymbol "ab" [⟨1, "xyz"⟩, ⟨2, "pq"⟩] = some 2 ∧
     stock_history (some "ab") none 0 none none []
        [.response 200 [⟨1, "xyz"⟩, ⟨2, "pq"⟩]]
       = wrapFetch (.intVal 2) 0 none none []) ∧
    (resolveSymbol "ab" [⟨1, "xyz"⟩] = none ∧
     stock_history (some "ab") none 0 none none []
        [.response 200 [⟨1, "xyz"⟩]]
       = .swallowed (errMsg (.notFound "ab"))) := by
  constructor
  · exact (c5_resolution "ab" 0 none none []).1 [⟨1, "xyz"⟩] [] ⟨2, "pq"⟩
      (by decide) (by decide)
  · exact (c5_resolution "ab" 0 none none []).2 [⟨1, "xyz"⟩] (by decide)

/-- C6: when the try-block body raises any internal error (malformed
inscode, unmatched symbol, non-200 upstream status, unbound response
variable after exhausted retries), the top level of `stock_history`
catches it, prints the diagnostic message and returns the implicit None;
no exception propagates to the caller. -/
theorem c6_swallow (symbol : Option String) (inscode : Option InsParam)
    (days : Nat) (sd ed : Option Date)
    (hist : List (Attempt (List RawRecord)))
    (search : List (Attempt (List Candidate))) (e : FetchError)
    (h : innerStock symbol inscode days sd ed hist search = .error e) :
    stock_history symbol inscode days sd ed hist search
      = .swallowed (errMsg e) := by
  simp [stock_history, h]

/-- C6 witness: a malformed inscode raises a ValueError and the call
returns the swallowed diagnostic. -/
theorem c6_swallow_witness :
    stock_history none (some (.intVal 5)) 0 none none [] []
      = .swallowed (errMsg (.invalidInscode (.intVal 5))) :=
  c6_swallow none (some (.intVal 5)) 0 none none [] []
    (.invalidInscode (.intVal 5)) rfl

/-- C7: on the table of 2021-01-01 .. 2021-01-10 the window
2021-01-03 .. 2021-01-05 keeps exactly the rows of the 3rd, 4th and 5th;
in general the slice keeps exactly the rows with
start_date <= row.date <= end_date, both bounds inclusive. -/
theorem c7_filter :
    (sliceRows rows10 (some ⟨2021, 1, 3⟩) (some ⟨2021, 1, 5⟩)).map
        NormRow.date
      = [⟨2021, 1, 3⟩, ⟨2021, 1, 4⟩, ⟨2021, 1, 5⟩] ∧
    ∀ (rows : List NormRow) (s e : Date) (r : NormRow),
      r ∈ sliceRows rows (some s) (some e) ↔
        r ∈ rows ∧ s ≤ r.date ∧ r.date ≤ e := by
  constructor
  · decide
  · intro rows s e r
    simp [sliceRows, List.mem_filter, and_assoc]

/-- C8: for raw records with strictly increasing dates, normalization
produces exactly n rows, in the input order (the i-th row carries the
parsed date of the i-th record), with pairwise distinct Gregorian date
keys. -/
theorem c8_normalization (records : List RawRecord)
    (h : records.Pairwise (fun a b => a.dEven < b.dEven)) :
    (normalize records).length = records.length ∧
    (normalize records).map NormRow.date
      = records.map (fun r => parseDEven r.dEven) ∧
    (normalize records).Pairwise (fun a b => a.date ≠ b.date) := by
  refine ⟨by simp [normalize], ?_, ?_⟩
  · rw [normalize, List.map_map]
    rfl
  · rw [normalize, List.pairwise_map]
    exact h.imp (fun hlt heq => absurd (parseDEven_inj heq) (Nat.ne_of_lt hlt))

/-- C8 witness: three records with increasing dates normalize to three
ordered rows with distinct date keys. -/
theorem c8_normalization_witness :
    (normalize [demoRaw 20210101, demoRaw 20210102, demoRaw 20210105]).length
      = ([demoRaw 20210101, demoRaw 20210102, demoRaw 20210105] :
          List RawRecord).length ∧
    (normalize [demoRaw 20210101, demoRaw 20210102,
        demoRaw 20210105]).map NormRow.date
      = ([demoRaw 20210101, demoRaw 20210102, demoRaw 20210105] :
          List RawRecord).map (fun r => parseDEven r.dEven) ∧
    (normalize [demoRaw 20210101, demoRaw 20210102,
        demoRaw 20210105]).Pairwise (fun a b => a.date ≠ b.date) :=
  c8_normalization [demoRaw 20210101, demoRaw 20210102, demoRaw 20210105]
    (by decide)

/-- C9: when neither `symbol` nor `inscode` is supplied, `stock_history`
returns the sentinel string, whatever the values of `days`, `start_date`
and `end_date`. -/
theorem c9_sentinel (days : Nat) (sd ed : Option Date)
    (hist : List (Attempt (List RawRecord)))
    (search : List (Attempt (List Candidate))) :
    stock_history none none days sd ed hist search
      = .sentinel "No valid parameters provided for fetching stock data." :=
  rfl

/-- C10: after the column pipeline, the table keeps the Gregorian date
both as the row index and as an ordinary `date` column (`set_index` was
called with the date Series, which removes no column), and the derived
`date_shamsi` field is the first column. -/
theorem c10_schema :
    normalizedFrame.cols = ["date_shamsi", "date", "close", "value_of_trade"] ∧
    normalizedFrame.cols.head? = some "date_shamsi" ∧
    "date" ∈ normalizedFrame.cols ∧
    normalizedFrame.indexName = some "date" := by
  refine ⟨rfl, rfl, by decide, rfl⟩

end Tsetmc
